import Mathlib

/-!
Shallow embedding of the PN5180-tagomatic firmware sketch
(`sketch/pn5180_reader/pn5180_reader.ino`).

Pin levels are modelled as `Bool` with `false` = LOW and `true` = HIGH.
Time is discretised to milliseconds: a pin is a trace `Nat → Bool` giving
its level at each millisecond since the start of the enclosing wait loop,
and each poll of a busy-wait loop advances time by one millisecond.
Machine bytes are `Nat` values taken modulo 256 wherever the source stores
into a `uint8_t`.
-/

namespace PN5180

/-! ## Opcodes (SPI commands for PN5180) -/

def PN5180_WRITE_REGISTER : Nat := 0x00
def PN5180_WRITE_REGISTER_OR_MASK : Nat := 0x01
def PN5180_WRITE_REGISTER_AND_MASK : Nat := 0x02
def PN5180_WRITE_REGISTER_MULTIPLE : Nat := 0x03
def PN5180_READ_REGISTER : Nat := 0x04
def PN5180_READ_REGISTER_MULTIPLE : Nat := 0x05
def PN5180_WRITE_EEPROM : Nat := 0x06
def PN5180_READ_EEPROM : Nat := 0x07
def PN5180_WRITE_TX_DATA : Nat := 0x08
def PN5180_SEND_DATA : Nat := 0x09
def PN5180_READ_DATA : Nat := 0x0A
def PN5180_MIFARE_AUTHENTICATE : Nat := 0x0C
def PN5180_EPC_INVENTORY : Nat := 0x0D
def PN5180_RF_ON : Nat := 0x16
def PN5180_RF_OFF : Nat := 0x17

/-! ## Busy-wait loops

`wait_busy_is` in the source:
```
static bool wait_busy_is(PinStatus value, const unsigned long timeout = 800) {
  auto start = millis();
  while ((millis() - start) <= timeout) {
    if (digitalRead(PN5180_BUSY) == value) { return true; }
  }
  return digitalRead(PN5180_BUSY) == value;
}
```
The loop polls while the elapsed time is at most `timeout`, then samples the
pin once more after the deadline.  `pollLoop pin value t fuel` performs the
in-window polls at times `t, t+1, …, t+fuel-1` and the final post-deadline
sample at `t+fuel`.
-/

def pollLoop (pin : Nat → Bool) (value : Bool) : Nat → Nat → Bool
  | t, 0 => pin t == value
  | t, fuel+1 => if pin t == value then true else pollLoop pin value (t+1) fuel

/-- The in-window polls happen at elapsed times `0 … timeout`
(`timeout + 1` polls), then one final sample at `timeout + 1`. -/
def wait_busy_is (pin : Nat → Bool) (value : Bool) (timeout : Nat) : Bool :=
  pollLoop pin value 0 (timeout + 1)

/-- The source's default value of `wait_busy_is`'s `timeout` argument. -/
def WAIT_BUSY_DEFAULT_TIMEOUT : Nat := 800

/-- `wait_for_irq` in the source has the same loop shape as `wait_busy_is`,
polling `is_irq_set()` (IRQ pin HIGH) with a caller-supplied timeout and one
final post-deadline sample. -/
def wait_for_irq (irq : Nat → Bool) (timeout : Nat) : Bool :=
  pollLoop irq true 0 (timeout + 1)

/-! ## SPI exchange primitives

An exchange is observed through a trace of events: busy-waits with their
target level and outcome, writes to the NSS chip-select line, and the SPI
transfer itself.  The environment supplies one busy-pin trace per wait
phase (the phases happen at different wall-clock times) and the byte stream
the front-end returns during a receive transfer.
-/

inductive Event where
  | waitBusy (value : Bool) (ok : Bool)
  | nss (level : Bool)
  | transfer (data : List Nat)
  deriving DecidableEq, Repr

structure SpiEnv where
  busy1 : Nat → Bool
  busy2 : Nat → Bool
  busy3 : Nat → Bool
  resp : Nat → Nat

/-- Environment in which every busy-wait succeeds immediately (busy pin is
already LOW before the exchange, goes HIGH when the command is accepted and
LOW again afterwards), returning `resp` bytes on receive transfers. -/
def okBusyEnv (resp : Nat → Nat) : SpiEnv :=
  ⟨fun _ => false, fun _ => true, fun _ => false, resp⟩

/-- `send_spi_data` in the source: rejects frames larger than its 256-byte
local buffer with -1; then waits for busy LOW (-2 on failure), asserts NSS,
transfers the frame, waits for busy HIGH (-3 on failure), deasserts NSS,
and — only if everything so far succeeded — waits for busy LOW again
(-4 on failure).  Returns the code and the event trace. -/
def send_spi_data (env : SpiEnv) (data : List Nat) : Int × List Event :=
  if data.length > 256 then (-1, [])
  else if !wait_busy_is env.busy1 false WAIT_BUSY_DEFAULT_TIMEOUT then
    (-2, [Event.waitBusy false false])
  else
    let pre := [Event.waitBusy false true, Event.nss false, Event.transfer data]
    if !wait_busy_is env.busy2 true WAIT_BUSY_DEFAULT_TIMEOUT then
      (-3, pre ++ [Event.waitBusy true false, Event.nss true])
    else
      let mid := pre ++ [Event.waitBusy true true, Event.nss true]
      if !wait_busy_is env.busy3 false WAIT_BUSY_DEFAULT_TIMEOUT then
        (-4, mid ++ [Event.waitBusy false false])
      else
        (0, mid ++ [Event.waitBusy false true])

/-- `recv_spi_data` in the source: same handshake shape as `send_spi_data`
(wait busy LOW, assert NSS, transfer, wait busy HIGH, deassert NSS, wait
busy LOW), with failure codes -1, -2 and -3 for the three wait phases.  The
buffer is pre-filled with 0xff and overwritten by the transfer; on a
first-phase failure no transfer happens and the 0xff fill remains.
Returns the code, the buffer contents, and the event trace. -/
def recv_spi_data (env : SpiEnv) (len : Nat) : Int × List Nat × List Event :=
  if !wait_busy_is env.busy1 false WAIT_BUSY_DEFAULT_TIMEOUT then
    (-1, List.replicate len 0xff, [Event.waitBusy false false])
  else
    let rdata := (List.range len).map fun i => env.resp i % 256
    let pre := [Event.waitBusy false true, Event.nss false, Event.transfer rdata]
    if !wait_busy_is env.busy2 true WAIT_BUSY_DEFAULT_TIMEOUT then
      (-2, rdata, pre ++ [Event.waitBusy true false, Event.nss true])
    else
      let mid := pre ++ [Event.waitBusy true true, Event.nss true]
      if !wait_busy_is env.busy3 false WAIT_BUSY_DEFAULT_TIMEOUT then
        (-3, rdata, mid ++ [Event.waitBusy false false])
      else
        (0, rdata, mid ++ [Event.waitBusy false true])

/-! ## RPC operations built on the exchange primitives

Each operation is parametrised by one `SpiEnv` per exchange it performs
(the exchanges happen at distinct wall-clock times).  The frame-building
definitions mirror the `uint8_t` buffer construction of the source, with
`% 256` at every byte store.
-/

/-- Frame built by `write_register`:
`{PN5180_WRITE_REGISTER, addr, value, value >> 8, value >> 16, value >> 24}`
(little-endian 32-bit value). -/
def write_register_frame (addr value : Nat) : List Nat :=
  [PN5180_WRITE_REGISTER, addr % 256, value % 256, (value / 2^8) % 256,
   (value / 2^16) % 256, (value / 2^24) % 256]

def write_register (env : SpiEnv) (addr value : Nat) : Int × List Event :=
  send_spi_data env (write_register_frame addr value)

/-- `read_register`: sends `{PN5180_READ_REGISTER, addr}`, then receives 4
bytes which the source reinterprets as a `uint32_t` through the Cortex-M0+'s
little-endian memory layout.  On a send failure the source returns the
error code with the value field of its result left default-initialised. -/
def read_register (es er : SpiEnv) (addr : Nat) : Int × Nat :=
  let s := send_spi_data es [PN5180_READ_REGISTER, addr % 256]
  if s.1 ≠ 0 then (s.1, 0)
  else
    let r := recv_spi_data er 4
    let bytes := r.2.1
    let reg_value := bytes.getD 0 0 + bytes.getD 1 0 * 2^8 +
      bytes.getD 2 0 * 2^16 + bytes.getD 3 0 * 2^24
    (if r.1 ≠ 0 then r.1 else 0, reg_value)

/-- Size of the local frame buffer of `write_register_multiple` in the
source: `uint8_t buffer[211]`. -/
def WRM_BUFFER_SIZE : Nat := 211

/-- Buffer indices written for element `i` by the construction loop of
`write_register_multiple`: `buffer[1 + i*6] … buffer[6 + i*6]`
(address, operation, then the 4 value bytes). -/
def wrm_elem_indices (i : Nat) : List Nat :=
  [1 + i * 6, 2 + i * 6, 3 + i * 6, 4 + i * 6, 5 + i * 6, 6 + i * 6]

/-- Whether every buffer write of `write_register_multiple`'s construction
loop for `n` elements (plus the opcode store at index 0) stays inside the
211-byte buffer. -/
def wrm_in_bounds (n : Nat) : Bool :=
  0 < WRM_BUFFER_SIZE &&
    (List.range n).all fun i => (wrm_elem_indices i).all (· < WRM_BUFFER_SIZE)

/-- Frame content built by `write_register_multiple`: the opcode followed by
6 bytes per element (address, operation, 32-bit value little-endian). -/
def write_register_multiple_frame (elements : List (Nat × Nat × Nat)) : List Nat :=
  PN5180_WRITE_REGISTER_MULTIPLE ::
    elements.flatMap fun e =>
      [e.1 % 256, e.2.1 % 256, e.2.2 % 256, (e.2.2 / 2^8) % 256,
       (e.2.2 / 2^16) % 256, (e.2.2 / 2^24) % 256]

/-- `write_register_multiple`: rejects more than 42 elements with -1, else
hands the `1 + 6·n`-byte frame to `send_spi_data`. -/
def write_register_multiple (env : SpiEnv) (elements : List (Nat × Nat × Nat)) :
    Int × List Event :=
  if elements.length > 42 then (-1, [])
  else send_spi_data env (write_register_multiple_frame elements)

/-- `read_register_multiple`: rejects more than 18 addresses with -1, else
sends `{PN5180_READ_REGISTER_MULTIPLE, addr₀, …}` and receives `4·n` bytes,
decoded little-endian per register. -/
def read_register_multiple (es er : SpiEnv) (addrs : List Nat) :
    Int × List Nat :=
  if addrs.length > 18 then (-1, [])
  else
    let s := send_spi_data es (PN5180_READ_REGISTER_MULTIPLE :: addrs.map (· % 256))
    if s.1 ≠ 0 then (s.1, [])
    else
      let r := recv_spi_data er (4 * addrs.length)
      if r.1 ≠ 0 then (r.1, [])
      else
        (0, (List.range addrs.length).map fun i =>
          r.2.1.getD (i * 4) 0 + r.2.1.getD (i * 4 + 1) 0 * 2^8 +
          r.2.1.getD (i * 4 + 2) 0 * 2^16 + r.2.1.getD (i * 4 + 3) 0 * 2^24)

/-- Frame built by `write_eeprom` in the source: `buffer[0]` is the opcode
and `buffer[1 + i] = values[i]` — the `addr` parameter is never stored into
the buffer, so the frame does not depend on it. -/
def write_eeprom_frame (addr : Nat) (values : List Nat) : List Nat :=
  PN5180_WRITE_EEPROM :: values.map (· % 256)

/-- `write_eeprom`: rejects more than 255 bytes with -1, else transmits
`write_eeprom_frame addr values` (1 + n bytes). -/
def write_eeprom (env : SpiEnv) (addr : Nat) (values : List Nat) :
    Int × List Event :=
  if values.length > 255 then (-1, [])
  else send_spi_data env (write_eeprom_frame addr values)

/-- Frame built by `read_eeprom`: `{PN5180_READ_EEPROM, addr, len}`. -/
def read_eeprom_frame (addr len : Nat) : List Nat :=
  [PN5180_READ_EEPROM, addr % 256, len % 256]

/-- `read_eeprom`: sends its 3-byte frame, then receives `len` bytes. -/
def read_eeprom (es er : SpiEnv) (addr len : Nat) : Int × List Nat :=
  let s := send_spi_data es (read_eeprom_frame addr len)
  if s.1 ≠ 0 then (s.1, [])
  else
    let r := recv_spi_data er (len % 256)
    (if r.1 ≠ 0 then r.1 else 0, r.2.1)

/-- `write_tx_data`: rejects more than 260 bytes with -1, else transmits
`{PN5180_WRITE_TX_DATA, values…}` (1 + n bytes). -/
def write_tx_data (env : SpiEnv) (values : List Nat) : Int × List Event :=
  if values.length > 260 then (-1, [])
  else send_spi_data env (PN5180_WRITE_TX_DATA :: values.map (· % 256))

/-- `send_data`: rejects more than 260 bytes with -1, else transmits
`{PN5180_SEND_DATA, bits, values…}` (2 + n bytes). -/
def send_data (env : SpiEnv) (bits : Nat) (values : List Nat) : Int × List Event :=
  if values.length > 260 then (-1, [])
  else send_spi_data env (PN5180_SEND_DATA :: bits % 256 :: values.map (· % 256))

/-- `read_data`: rejects a requested length above its 508-byte response
buffer with -1, else sends `{PN5180_READ_DATA, 0x00}` and receives `len`
bytes. -/
def read_data (es er : SpiEnv) (len : Nat) : Int × List Nat :=
  if len > 508 then (-1, [])
  else
    let s := send_spi_data es [PN5180_READ_DATA, 0x00]
    if s.1 ≠ 0 then (s.1, [])
    else
      let r := recv_spi_data er len
      (if r.1 ≠ 0 then r.1 else 0, r.2.1)

/-- Frame built by `epc_inventory`: opcode, select-command length, then —
only when the select command is non-empty — the final-bits byte and the
select command, then the 3 `begin_round` bytes and the timeslot byte. -/
def epc_inventory_frame (select_command : List Nat) (final_bits : Nat)
    (begin_round : List Nat) (timeslot : Nat) : List Nat :=
  PN5180_EPC_INVENTORY :: select_command.length % 256 ::
    ((if select_command.length ≠ 0 then
        final_bits % 256 :: select_command.map (· % 256)
      else []) ++
     [begin_round.getD 0 0 % 256, begin_round.getD 1 0 % 256,
      begin_round.getD 2 0 % 256, timeslot % 256])

/-- `epc_inventory`: rejects a selection command over 39 bytes with -1,
else transmits its frame. -/
def epc_inventory (env : SpiEnv) (select_command : List Nat) (final_bits : Nat)
    (begin_round : List Nat) (timeslot : Nat) : Int × List Event :=
  if select_command.length > 39 then (-1, [])
  else send_spi_data env (epc_inventory_frame select_command final_bits begin_round timeslot)

/-- Frame built by `mifare_authenticate`: opcode, the 6 key bytes, key
type, block address, then the 32-bit uid little-endian. -/
def mifare_authenticate_frame (key : List Nat) (key_type block_addr uid : Nat) :
    List Nat :=
  [PN5180_MIFARE_AUTHENTICATE, key.getD 0 0 % 256, key.getD 1 0 % 256,
   key.getD 2 0 % 256, key.getD 3 0 % 256, key.getD 4 0 % 256, key.getD 5 0 % 256,
   key_type % 256, block_addr % 256, uid % 256, (uid / 2^8) % 256,
   (uid / 2^16) % 256, (uid / 2^24) % 256]

/-- `mifare_authenticate`: sends its 13-byte command; on a send failure
returns that (negative) code; then receives the 1-byte card status; on a
receive failure returns that (negative) code; otherwise returns the status
byte (a `uint8_t`, hence non-negative). -/
def mifare_authenticate (es er : SpiEnv) (key : List Nat)
    (key_type block_addr uid : Nat) : Int :=
  let s := send_spi_data es (mifare_authenticate_frame key key_type block_addr uid)
  if s.1 ≠ 0 then s.1
  else
    let r := recv_spi_data er 1
    if r.1 ≠ 0 then r.1
    else ((r.2.1.getD 0 0 : Nat) : Int)

/-- All three busy-wait phases of one exchange against `env` succeed. -/
def spiWaitsOk (env : SpiEnv) : Prop :=
  wait_busy_is env.busy1 false WAIT_BUSY_DEFAULT_TIMEOUT = true ∧
  wait_busy_is env.busy2 true WAIT_BUSY_DEFAULT_TIMEOUT = true ∧
  wait_busy_is env.busy3 false WAIT_BUSY_DEFAULT_TIMEOUT = true

instance (env : SpiEnv) : Decidable (spiWaitsOk env) := by
  unfold spiWaitsOk; infer_instance

/-! ## Simulated front-end for the register round-trip

The simulated front-end stores the 4 parameter bytes that follow the
address in the write-register command frame, and returns exactly those
bytes as the response to the next read-register exchange. -/

/-- `write_register addr value` followed by `read_register addr`, with
every busy-wait succeeding and the front-end echoing the stored write
parameters as the read response.  Returns the write result code and the
read result. -/
def write_read_roundtrip (addr value : Nat) : Int × Int × Nat :=
  let w := write_register (okBusyEnv fun _ => 0) addr value
  let stored := (write_register_frame addr value).drop 2
  let r := read_register (okBusyEnv fun _ => 0) (okBusyEnv fun i => stored.getD i 0) addr
  (w.1, r)

/-! ## Session scope (host-side library)

Modelled from the spec: the host-side Python library that owns the Session
lifecycle is not under `src/` (only the firmware sketch is).  Per the spec,
"`Session`: … created by `start_session`, destroyed (field forced off) when
its scope ends, on any exit path" and "On scope exit — success, error, or
early return — `rf_off()` is issued exactly once before release, a
scoped-acquisition guarantee with no exceptions."  The body of the scope is
abstracted as the list of card operations that actually ran before the
scope was exited, together with how it exited. -/

inductive ExitKind where
  | normal
  | raisedError
  | earlyReturn
  deriving DecidableEq, Repr

inductive SessEvent where
  | rfOnEv
  | cardOp (n : Nat)
  | rfOffEv
  | releaseEv
  deriving DecidableEq, Repr

/-- Modelled from the spec: the event trace of one Session scope — the
field is turned on at entry, the body's card operations run, and on exit
(whichever way the scope is left) `rf_off()` is issued once, before the
session is released. -/
def sessionTrace (bodyOps : List Nat) (exit : ExitKind) : List SessEvent :=
  SessEvent.rfOnEv :: (bodyOps.map SessEvent.cardOp ++
    [SessEvent.rfOffEv, SessEvent.releaseEv])

/-! ## Observers of event traces (for the NSS invariant) -/

/-- Final level of the NSS line after replaying a trace; NSS starts HIGH
(deasserted), as driven in `setup()`. -/
def nssFinal (tr : List Event) : Bool :=
  tr.foldl (fun s e => match e with | Event.nss l => l | _ => s) true

/-- Every assertion of NSS (drive LOW) in the trace happens only after some
busy-wait for LOW has succeeded. -/
def assertsGuarded : List Event → Bool → Bool
  | [], _ => true
  | Event.waitBusy false true :: rest, _ => assertsGuarded rest true
  | Event.nss false :: rest, seen => seen && assertsGuarded rest seen
  | _ :: rest, seen => assertsGuarded rest seen

/-! ## Helper lemmas -/

theorem pollLoop_eq_true_iff (pin : Nat → Bool) (v : Bool) :
    ∀ fuel t, pollLoop pin v t fuel = true ↔ ∃ k, k ≤ fuel ∧ pin (t + k) = v := by
  intro fuel
  induction fuel with
  | zero =>
    intro t
    simp [pollLoop]
  | succ n ih =>
    intro t
    by_cases h : pin t = v
    · simp only [pollLoop, h, beq_self_eq_true, if_true, true_iff]
      exact ⟨0, Nat.zero_le _, by simpa using h⟩
    · have hb : (pin t == v) = false := beq_eq_false_iff_ne.mpr h
      simp only [pollLoop, hb, Bool.false_eq_true, if_false]
      rw [ih (t + 1)]
      constructor
      · rintro ⟨k, hk, hp⟩
        refine ⟨k + 1, Nat.succ_le_succ hk, ?_⟩
        have he : t + (k + 1) = t + 1 + k := by omega
        rwa [he]
      · rintro ⟨k, hk, hp⟩
        cases k with
        | zero => exact absurd (by simpa using hp) h
        | succ m =>
          refine ⟨m, Nat.succ_le_succ_iff.mp hk, ?_⟩
          have he : t + 1 + m = t + (m + 1) := by omega
          rwa [he]

theorem wait_busy_is_eq_true_iff (pin : Nat → Bool) (v : Bool) (timeout : Nat) :
    wait_busy_is pin v timeout = true ↔
      (∃ t, t ≤ timeout ∧ pin t = v) ∨ pin (timeout + 1) = v := by
  unfold wait_busy_is
  rw [pollLoop_eq_true_iff]
  constructor
  · rintro ⟨k, hk, hp⟩
    rw [Nat.zero_add] at hp
    by_cases h : k ≤ timeout
    · exact Or.inl ⟨k, h, hp⟩
    · have : k = timeout + 1 := by omega
      exact Or.inr (this ▸ hp)
  · rintro (⟨t, ht, hp⟩ | hp)
    · exact ⟨t, by omega, by simpa using hp⟩
    · exact ⟨timeout + 1, le_rfl, by simpa using hp⟩

theorem wait_busy_is_congr (pin pin' : Nat → Bool) (v : Bool) (timeout : Nat)
    (h : ∀ t, t ≤ timeout + 1 → pin t = pin' t) :
    wait_busy_is pin v timeout = wait_busy_is pin' v timeout := by
  have hiff : (wait_busy_is pin v timeout = true) ↔
      (wait_busy_is pin' v timeout = true) := by
    rw [wait_busy_is_eq_true_iff, wait_busy_is_eq_true_iff]
    constructor
    · rintro (⟨t, ht, hp⟩ | hp)
      · exact Or.inl ⟨t, ht, by rw [← h t (by omega)]; exact hp⟩
      · exact Or.inr (by rw [← h (timeout + 1) le_rfl]; exact hp)
    · rintro (⟨t, ht, hp⟩ | hp)
      · exact Or.inl ⟨t, ht, by rw [h t (by omega)]; exact hp⟩
      · exact Or.inr (by rw [h (timeout + 1) le_rfl]; exact hp)
  cases ha : wait_busy_is pin v timeout <;>
    cases hb : wait_busy_is pin' v timeout <;> simp_all

theorem okBusy_wait_low (n : Nat) : wait_busy_is (fun _ => false) false n = true := by
  simp [wait_busy_is, pollLoop]

theorem okBusy_wait_high (n : Nat) : wait_busy_is (fun _ => true) true n = true := by
  simp [wait_busy_is, pollLoop]

theorem send_spi_data_okBusy (resp : Nat → Nat) (data : List Nat)
    (h : data.length ≤ 256) :
    send_spi_data (okBusyEnv resp) data =
      (0, [Event.waitBusy false true, Event.nss false, Event.transfer data,
           Event.waitBusy true true, Event.nss true, Event.waitBusy false true]) := by
  have hlen : ¬ data.length > 256 := by omega
  simp [send_spi_data, okBusyEnv, okBusy_wait_low, okBusy_wait_high, hlen]

theorem recv_spi_data_okBusy (resp : Nat → Nat) (len : Nat) :
    recv_spi_data (okBusyEnv resp) len =
      (0, (List.range len).map (fun i => resp i % 256),
       [Event.waitBusy false true, Event.nss false,
        Event.transfer ((List.range len).map fun i => resp i % 256),
        Event.waitBusy true true, Event.nss true, Event.waitBusy false true]) := by
  simp [recv_spi_data, okBusyEnv, okBusy_wait_low, okBusy_wait_high]

theorem send_phase1_fail (env : SpiEnv) (data : List Nat)
    (hlen : data.length ≤ 256)
    (h1 : wait_busy_is env.busy1 false WAIT_BUSY_DEFAULT_TIMEOUT = false) :
    send_spi_data env data = (-2, [Event.waitBusy false false]) := by
  have h : ¬ data.length > 256 := by omega
  simp [send_spi_data, h, h1]

theorem send_phase2_fail (env : SpiEnv) (data : List Nat)
    (hlen : data.length ≤ 256)
    (h1 : wait_busy_is env.busy1 false WAIT_BUSY_DEFAULT_TIMEOUT = true)
    (h2 : wait_busy_is env.busy2 true WAIT_BUSY_DEFAULT_TIMEOUT = false) :
    send_spi_data env data =
      (-3, [Event.waitBusy false true, Event.nss false, Event.transfer data,
            Event.waitBusy true false, Event.nss true]) := by
  have h : ¬ data.length > 256 := by omega
  simp [send_spi_data, h, h1, h2]

theorem send_phase3_fail (env : SpiEnv) (data : List Nat)
    (hlen : data.length ≤ 256)
    (h1 : wait_busy_is env.busy1 false WAIT_BUSY_DEFAULT_TIMEOUT = true)
    (h2 : wait_busy_is env.busy2 true WAIT_BUSY_DEFAULT_TIMEOUT = true)
    (h3 : wait_busy_is env.busy3 false WAIT_BUSY_DEFAULT_TIMEOUT = false) :
    send_spi_data env data =
      (-4, [Event.waitBusy false true, Event.nss false, Event.transfer data,
            Event.waitBusy true true, Event.nss true, Event.waitBusy false false]) := by
  have h : ¬ data.length > 256 := by omega
  simp [send_spi_data, h, h1, h2, h3]

theorem send_all_ok (env : SpiEnv) (data : List Nat)
    (hlen : data.length ≤ 256)
    (h1 : wait_busy_is env.busy1 false WAIT_BUSY_DEFAULT_TIMEOUT = true)
    (h2 : wait_busy_is env.busy2 true WAIT_BUSY_DEFAULT_TIMEOUT = true)
    (h3 : wait_busy_is env.busy3 false WAIT_BUSY_DEFAULT_TIMEOUT = true) :
    send_spi_data env data =
      (0, [Event.waitBusy false true, Event.nss false, Event.transfer data,
           Event.waitBusy true true, Event.nss true, Event.waitBusy false true]) := by
  have h : ¬ data.length > 256 := by omega
  simp [send_spi_data, h, h1, h2, h3]

theorem recv_phase1_fail (env : SpiEnv) (len : Nat)
    (h1 : wait_busy_is env.busy1 false WAIT_BUSY_DEFAULT_TIMEOUT = false) :
    recv_spi_data env len =
      (-1, List.replicate len 0xff, [Event.waitBusy false false]) := by
  simp [recv_spi_data, h1]

theorem recv_phase2_fail (env : SpiEnv) (len : Nat)
    (h1 : wait_busy_is env.busy1 false WAIT_BUSY_DEFAULT_TIMEOUT = true)
    (h2 : wait_busy_is env.busy2 true WAIT_BUSY_DEFAULT_TIMEOUT = false) :
    recv_spi_data env len =
      (-2, (List.range len).map (fun i => env.resp i % 256),
       [Event.waitBusy false true, Event.nss false,
        Event.transfer ((List.range len).map fun i => env.resp i % 256),
        Event.waitBusy true false, Event.nss true]) := by
  simp [recv_spi_data, h1, h2]

theorem recv_phase3_fail (env : SpiEnv) (len : Nat)
    (h1 : wait_busy_is env.busy1 false WAIT_BUSY_DEFAULT_TIMEOUT = true)
    (h2 : wait_busy_is env.busy2 true WAIT_BUSY_DEFAULT_TIMEOUT = true)
    (h3 : wait_busy_is env.busy3 false WAIT_BUSY_DEFAULT_TIMEOUT = false) :
    recv_spi_data env len =
      (-3, (List.range len).map (fun i => env.resp i % 256),
       [Event.waitBusy false true, Event.nss false,
        Event.transfer ((List.range len).map fun i => env.resp i % 256),
        Event.waitBusy true true, Event.nss true, Event.waitBusy false false]) := by
  simp [recv_spi_data, h1, h2, h3]

theorem recv_all_ok (env : SpiEnv) (len : Nat)
    (h1 : wait_busy_is env.busy1 false WAIT_BUSY_DEFAULT_TIMEOUT = true)
    (h2 : wait_busy_is env.busy2 true WAIT_BUSY_DEFAULT_TIMEOUT = true)
    (h3 : wait_busy_is env.busy3 false WAIT_BUSY_DEFAULT_TIMEOUT = true) :
    recv_spi_data env len =
      (0, (List.range len).map (fun i => env.resp i % 256),
       [Event.waitBusy false true, Event.nss false,
        Event.transfer ((List.range len).map fun i => env.resp i % 256),
        Event.waitBusy true true, Event.nss true, Event.waitBusy false true]) := by
  simp [recv_spi_data, h1, h2, h3]

theorem send_fst_neg (env : SpiEnv) (data : List Nat) (hlen : data.length ≤ 256)
    (h : ¬ spiWaitsOk env) : (send_spi_data env data).1 < 0 := by
  by_cases h1 : wait_busy_is env.busy1 false WAIT_BUSY_DEFAULT_TIMEOUT = true
  · by_cases h2 : wait_busy_is env.busy2 true WAIT_BUSY_DEFAULT_TIMEOUT = true
    · by_cases h3 : wait_busy_is env.busy3 false WAIT_BUSY_DEFAULT_TIMEOUT = true
      · exact absurd ⟨h1, h2, h3⟩ h
      · rw [Bool.not_eq_true] at h3
        rw [send_phase3_fail env data hlen h1 h2 h3]; norm_num
    · rw [Bool.not_eq_true] at h2
      rw [send_phase2_fail env data hlen h1 h2]; norm_num
  · rw [Bool.not_eq_true] at h1
    rw [send_phase1_fail env data hlen h1]; norm_num

theorem recv_fst_neg (env : SpiEnv) (len : Nat)
    (h : ¬ spiWaitsOk env) : (recv_spi_data env len).1 < 0 := by
  by_cases h1 : wait_busy_is env.busy1 false WAIT_BUSY_DEFAULT_TIMEOUT = true
  · by_cases h2 : wait_busy_is env.busy2 true WAIT_BUSY_DEFAULT_TIMEOUT = true
    · by_cases h3 : wait_busy_is env.busy3 false WAIT_BUSY_DEFAULT_TIMEOUT = true
      · exact absurd ⟨h1, h2, h3⟩ h
      · rw [Bool.not_eq_true] at h3
        rw [recv_phase3_fail env len h1 h2 h3]; norm_num
    · rw [Bool.not_eq_true] at h2
      rw [recv_phase2_fail env len h1 h2]; norm_num
  · rw [Bool.not_eq_true] at h1
    rw [recv_phase1_fail env len h1]; norm_num

/-! ## Claim theorems -/

/-- Claim C10: `wait_busy_is` and `wait_for_irq` sample their pin once more
after the timeout window has elapsed and return that final sample's result:
they return true iff the pin has the desired value at some poll within the
window (elapsed time ≤ timeout) or at the single post-deadline sample. -/
theorem claim_C10_wait_final_sample (pin irq : Nat → Bool) (value : Bool)
    (timeout tIrq : Nat) :
    (wait_busy_is pin value timeout = true ↔
      ((∃ t, t ≤ timeout ∧ pin t = value) ∨ pin (timeout + 1) = value)) ∧
    (wait_for_irq irq tIrq = true ↔
      ((∃ t, t ≤ tIrq ∧ irq t = true) ∨ irq (tIrq + 1) = true)) :=
  ⟨wait_busy_is_eq_true_iff pin value timeout,
   wait_busy_is_eq_true_iff irq true tIrq⟩

/-- Claim C5: every busy-wait and IRQ-wait loop terminates within its
bound — the outcome of `wait_busy_is` (default timeout 800) and of
`wait_for_irq` (caller-supplied timeout) is fully determined by the pin
trace within the bounded window `0 … timeout+1`, so the wait never consults
the pin beyond its bound — and a phase whose wait fails makes the enclosing
exchange primitive return a definite negative transport-failure code:
`send_spi_data` and `recv_spi_data` return a negative code exactly when
some busy-wait phase failed. -/
theorem claim_C5_bounded_waits (pin pin' : Nat → Bool) (value : Bool)
    (timeout : Nat) (env : SpiEnv) (data : List Nat) (len : Nat) :
    ((∀ t, t ≤ timeout + 1 → pin t = pin' t) →
       wait_busy_is pin value timeout = wait_busy_is pin' value timeout ∧
       wait_for_irq pin timeout = wait_for_irq pin' timeout) ∧
    (data.length ≤ 256 →
       ((send_spi_data env data).1 < 0 ↔ ¬ spiWaitsOk env)) ∧
    ((recv_spi_data env len).1 < 0 ↔ ¬ spiWaitsOk env) := by
  refine ⟨fun h => ⟨wait_busy_is_congr pin pin' value timeout h,
    wait_busy_is_congr pin pin' true timeout h⟩, fun hlen => ?_, ?_⟩ <;>
  · by_cases h1 : wait_busy_is env.busy1 false WAIT_BUSY_DEFAULT_TIMEOUT = true
    · by_cases h2 : wait_busy_is env.busy2 true WAIT_BUSY_DEFAULT_TIMEOUT = true
      · by_cases h3 : wait_busy_is env.busy3 false WAIT_BUSY_DEFAULT_TIMEOUT = true
        · first
          | rw [send_all_ok env data hlen h1 h2 h3]
          | rw [recv_all_ok env len h1 h2 h3]
          simp [spiWaitsOk, h1, h2, h3]
        · rw [Bool.not_eq_true] at h3
          first
          | rw [send_phase3_fail env data hlen h1 h2 h3]
          | rw [recv_phase3_fail env len h1 h2 h3]
          simp [spiWaitsOk, h3]
      · rw [Bool.not_eq_true] at h2
        first
        | rw [send_phase2_fail env data hlen h1 h2]
        | rw [recv_phase2_fail env len h1 h2]
        simp [spiWaitsOk, h2]
    · rw [Bool.not_eq_true] at h1
      first
      | rw [send_phase1_fail env data hlen h1]
      | rw [recv_phase1_fail env len h1]
      simp [spiWaitsOk, h1]

/-- Witness for C5 at a concrete input: traces that agree on the window,
and an environment whose second phase never goes HIGH, making
`send_spi_data` fail with a negative code. -/
theorem claim_C5_bounded_waits_witness :
    (∀ t, t ≤ 3 + 1 → (fun _ => false) t = (fun n => decide (n > 10)) t) ∧
    wait_busy_is (fun _ => false) true 3 =
      wait_busy_is (fun n => decide (n > 10)) true 3 ∧
    ((send_spi_data ⟨fun _ => false, fun _ => false, fun _ => false, fun _ => 0⟩
        [1, 2]).1 < 0 ↔
      ¬ spiWaitsOk ⟨fun _ => false, fun _ => false, fun _ => false, fun _ => 0⟩) := by
  have h := claim_C5_bounded_waits (fun _ => false) (fun n => decide (n > 10))
    true 3 ⟨fun _ => false, fun _ => false, fun _ => false, fun _ => 0⟩ [1, 2] 0
  exact ⟨by decide, (h.1 (by decide)).1, h.2.1 (by decide)⟩

/-- Claim C2: for every frame handed to `send_spi_data` (at most its
256-byte buffer), the exchange performs the three-phase handshake in
exactly this order — wait for BUSY low, assert NSS, transfer the frame,
wait for BUSY high, deassert NSS, wait for BUSY low again — each phase
failure yielding its distinct negative code (-2, -3, -4; the third wait is
skipped after a second-phase failure), and `recv_spi_data` follows the same
handshake shape with codes -1, -2, -3. -/
theorem claim_C2_handshake_order (env : SpiEnv) (data : List Nat) (len : Nat)
    (hlen : data.length ≤ 256) :
    (wait_busy_is env.busy1 false WAIT_BUSY_DEFAULT_TIMEOUT = false →
       send_spi_data env data = (-2, [Event.waitBusy false false])) ∧
    (wait_busy_is env.busy1 false WAIT_BUSY_DEFAULT_TIMEOUT = true →
     wait_busy_is env.busy2 true WAIT_BUSY_DEFAULT_TIMEOUT = false →
       send_spi_data env data =
         (-3, [Event.waitBusy false true, Event.nss false, Event.transfer data,
               Event.waitBusy true false, Event.nss true])) ∧
    (wait_busy_is env.busy1 false WAIT_BUSY_DEFAULT_TIMEOUT = true →
     wait_busy_is env.busy2 true WAIT_BUSY_DEFAULT_TIMEOUT = true →
     wait_busy_is env.busy3 false WAIT_BUSY_DEFAULT_TIMEOUT = false →
       send_spi_data env data =
         (-4, [Event.waitBusy false true, Event.nss false, Event.transfer data,
               Event.waitBusy true true, Event.nss true, Event.waitBusy false false])) ∧
    (wait_busy_is env.busy1 false WAIT_BUSY_DEFAULT_TIMEOUT = true →
     wait_busy_is env.busy2 true WAIT_BUSY_DEFAULT_TIMEOUT = true →
     wait_busy_is env.busy3 false WAIT_BUSY_DEFAULT_TIMEOUT = true →
       send_spi_data env data =
         (0, [Event.waitBusy false true, Event.nss false, Event.transfer data,
              Event.waitBusy true true, Event.nss true, Event.waitBusy false true])) ∧
    (wait_busy_is env.busy1 false WAIT_BUSY_DEFAULT_TIMEOUT = false →
       recv_spi_data env len =
         (-1, List.replicate len 0xff, [Event.waitBusy false false])) ∧
    (wait_busy_is env.busy1 false WAIT_BUSY_DEFAULT_TIMEOUT = true →
     wait_busy_is env.busy2 true WAIT_BUSY_DEFAULT_TIMEOUT = false →
       recv_spi_data env len =
         (-2, (List.range len).map (fun i => env.resp i % 256),
          [Event.waitBusy false true, Event.nss false,
           Event.transfer ((List.range len).map fun i => env.resp i % 256),
           Event.waitBusy true false, Event.nss true])) ∧
    (wait_busy_is env.busy1 false WAIT_BUSY_DEFAULT_TIMEOUT = true →
     wait_busy_is env.busy2 true WAIT_BUSY_DEFAULT_TIMEOUT = true →
     wait_busy_is env.busy3 false WAIT_BUSY_DEFAULT_TIMEOUT = false →
       recv_spi_data env len =
         (-3, (List.range len).map (fun i => env.resp i % 256),
          [Event.waitBusy false true, Event.nss false,
           Event.transfer ((List.range len).map fun i => env.resp i % 256),
           Event.waitBusy true true, Event.nss true, Event.waitBusy false false])) ∧
    (wait_busy_is env.busy1 false WAIT_BUSY_DEFAULT_TIMEOUT = true →
     wait_busy_is env.busy2 true WAIT_BUSY_DEFAULT_TIMEOUT = true →
     wait_busy_is env.busy3 false WAIT_BUSY_DEFAULT_TIMEOUT = true →
       recv_spi_data env len =
         (0, (List.range len).map (fun i => env.resp i % 256),
          [Event.waitBusy false true, Event.nss false,
           Event.transfer ((List.range len).map fun i => env.resp i % 256),
           Event.waitBusy true true, Event.nss true, Event.waitBusy false true])) :=
  ⟨send_phase1_fail env data hlen,
   send_phase2_fail env data hlen,
   send_phase3_fail env data hlen,
   send_all_ok env data hlen,
   recv_phase1_fail env len,
   recv_phase2_fail env len,
   recv_phase3_fail env len,
   recv_all_ok env len⟩

/-- Witness for C2 at a concrete input: an always-ready environment and a
2-byte frame take the success path of the three-phase handshake. -/
theorem claim_C2_handshake_order_witness :
    ([1, 2] : List Nat).length ≤ 256 ∧
    send_spi_data (okBusyEnv fun _ => 0) [1, 2] =
      (0, [Event.waitBusy false true, Event.nss false, Event.transfer [1, 2],
           Event.waitBusy true true, Event.nss true, Event.waitBusy false true]) :=
  ⟨by decide,
   (claim_C2_handshake_order (okBusyEnv fun _ => 0) [1, 2] 0
      (by decide)).2.2.2.1 (by decide) (by decide) (by decide)⟩

/-- Claim C9: on every return path of `send_spi_data` and `recv_spi_data` —
success, oversize rejection, or a timeout in any handshake phase — the NSS
select line is left deasserted (HIGH), and NSS is asserted only after a
busy-LOW wait has succeeded. -/
theorem claim_C9_nss_released (env : SpiEnv) (data : List Nat) (len : Nat) :
    nssFinal (send_spi_data env data).2 = true ∧
    assertsGuarded (send_spi_data env data).2 false = true ∧
    nssFinal (recv_spi_data env len).2.2 = true ∧
    assertsGuarded (recv_spi_data env len).2.2 false = true := by
  by_cases hlen : data.length > 256
  case pos =>
    have hsend : send_spi_data env data = (-1, []) := by
      simp [send_spi_data, hlen]
    rw [hsend]
    refine ⟨rfl, rfl, ?_, ?_⟩ <;>
    · by_cases h1 : wait_busy_is env.busy1 false WAIT_BUSY_DEFAULT_TIMEOUT = true
      · by_cases h2 : wait_busy_is env.busy2 true WAIT_BUSY_DEFAULT_TIMEOUT = true
        · by_cases h3 : wait_busy_is env.busy3 false WAIT_BUSY_DEFAULT_TIMEOUT = true
          · rw [recv_all_ok env len h1 h2 h3]; rfl
          · rw [Bool.not_eq_true] at h3
            rw [recv_phase3_fail env len h1 h2 h3]; rfl
        · rw [Bool.not_eq_true] at h2
          rw [recv_phase2_fail env len h1 h2]; rfl
      · rw [Bool.not_eq_true] at h1
        rw [recv_phase1_fail env len h1]; rfl
  case neg =>
    have hlen' : data.length ≤ 256 := by omega
    refine ⟨?_, ?_, ?_, ?_⟩ <;>
    · by_cases h1 : wait_busy_is env.busy1 false WAIT_BUSY_DEFAULT_TIMEOUT = true
      · by_cases h2 : wait_busy_is env.busy2 true WAIT_BUSY_DEFAULT_TIMEOUT = true
        · by_cases h3 : wait_busy_is env.busy3 false WAIT_BUSY_DEFAULT_TIMEOUT = true
          · first
            | (rw [send_all_ok env data hlen' h1 h2 h3]; rfl)
            | (rw [recv_all_ok env len h1 h2 h3]; rfl)
          · rw [Bool.not_eq_true] at h3
            first
            | (rw [send_phase3_fail env data hlen' h1 h2 h3]; rfl)
            | (rw [recv_phase3_fail env len h1 h2 h3]; rfl)
        · rw [Bool.not_eq_true] at h2
          first
          | (rw [send_phase2_fail env data hlen' h1 h2]; rfl)
          | (rw [recv_phase2_fail env len h1 h2]; rfl)
      · rw [Bool.not_eq_true] at h1
        first
        | (rw [send_phase1_fail env data hlen' h1]; rfl)
        | (rw [recv_phase1_fail env len h1]; rfl)

/-- Claim C6: `mifare_authenticate` returns a negative transport error code
exactly when a handshake phase of its command send or its one-byte response
receive fails, and otherwise returns the card's status byte (0 for
Authenticated, 1 for Denied, 2 for Timeout), which is non-negative — so
hardware-reported outcomes are always distinguishable from transport-level
failures. -/
theorem claim_C6_mifare_auth_codes (es er : SpiEnv) (key : List Nat)
    (key_type block_addr uid : Nat) :
    (mifare_authenticate es er key key_type block_addr uid < 0 ↔
      ¬ (spiWaitsOk es ∧ spiWaitsOk er)) ∧
    (spiWaitsOk es → spiWaitsOk er →
      mifare_authenticate es er key key_type block_addr uid =
        ((er.resp 0 % 256 : Nat) : Int) ∧
      0 ≤ mifare_authenticate es er key key_type block_addr uid) := by
  have hlen : (mifare_authenticate_frame key key_type block_addr uid).length ≤ 256 := by
    simp [mifare_authenticate_frame]
  by_cases hA : spiWaitsOk es
  · obtain ⟨a1, a2, a3⟩ := hA
    have hs := send_all_ok es _ hlen a1 a2 a3
    by_cases hB : spiWaitsOk er
    · obtain ⟨b1, b2, b3⟩ := hB
      have hr := recv_all_ok er 1 b1 b2 b3
      have hm : mifare_authenticate es er key key_type block_addr uid =
          ((er.resp 0 % 256 : Nat) : Int) := by
        simp [mifare_authenticate, hs, hr]
      rw [hm]
      refine ⟨⟨fun hneg => absurd hneg (Int.not_lt.mpr (Int.natCast_nonneg _)),
              fun hcon => absurd ⟨⟨a1, a2, a3⟩, ⟨b1, b2, b3⟩⟩ hcon⟩,
             fun _ _ => ⟨rfl, Int.natCast_nonneg _⟩⟩
    · have hrneg := recv_fst_neg er 1 hB
      have hr0 : (recv_spi_data er 1).1 ≠ 0 := by omega
      have hm : mifare_authenticate es er key key_type block_addr uid =
          (recv_spi_data er 1).1 := by
        simp [mifare_authenticate, hs, hr0]
      rw [hm]
      exact ⟨⟨fun _ hc => hB hc.2, fun _ => hrneg⟩, fun _ hB' => absurd hB' hB⟩
  · have hsneg := send_fst_neg es _ hlen hA
    have hs0 : (send_spi_data es
        (mifare_authenticate_frame key key_type block_addr uid)).1 ≠ 0 := by omega
    have hm : mifare_authenticate es er key key_type block_addr uid =
        (send_spi_data es (mifare_authenticate_frame key key_type block_addr uid)).1 := by
      simp [mifare_authenticate, hs0]
    rw [hm]
    exact ⟨⟨fun _ hc => hA hc.1, fun _ => hsneg⟩, fun hA' => absurd hA' hA⟩

/-- Witness for C6 at a concrete input: an always-ready pair of
environments whose response byte is 1 (Denied) makes `mifare_authenticate`
return exactly 1. -/
theorem claim_C6_mifare_auth_codes_witness :
    spiWaitsOk (okBusyEnv fun _ => 1) ∧
    mifare_authenticate (okBusyEnv fun _ => 1) (okBusyEnv fun _ => 1)
      [0xff, 0xff, 0xff, 0xff, 0xff, 0xff] 0x60 4 0xdeadbeef = 1 := by
  have hok : spiWaitsOk (okBusyEnv fun _ => 1) := by
    refine ⟨?_, ?_, ?_⟩ <;> decide
  refine ⟨hok, ?_⟩
  have h := (claim_C6_mifare_auth_codes (okBusyEnv fun _ => 1) (okBusyEnv fun _ => 1)
    [0xff, 0xff, 0xff, 0xff, 0xff, 0xff] 0x60 4 0xdeadbeef).2 hok hok
  rw [h.1]; decide

/-- Claim C7: against a simulated front-end that stores the 4 parameter
bytes of the write-register command and returns them as the next
read-register response, `write_register addr v` followed by
`read_register addr` returns status 0 and the value `v` — the little-endian
encoding of `v` is inverted by the 4-byte decoding. -/
theorem claim_C7_register_roundtrip (addr value : Nat) (h : value < 2^32) :
    write_read_roundtrip addr value = (0, 0, value) := by
  have hw : (write_register_frame addr value).length ≤ 256 := by
    simp [write_register_frame]
  have hsend1 := send_spi_data_okBusy (fun _ => 0) (write_register_frame addr value) hw
  have hsend2 := send_spi_data_okBusy (fun _ => 0) [PN5180_READ_REGISTER, addr % 256]
    (by simp)
  simp only [write_read_roundtrip, write_register, read_register, hsend1, hsend2,
    recv_spi_data_okBusy, ne_eq, not_true_eq_false, if_false]
  simp [write_register_frame, List.range_succ, List.getD, Prod.ext_iff]
  omega

/-- Witness for C7 at a concrete input. -/
theorem claim_C7_register_roundtrip_witness :
    0xdeadbeef < 2^32 ∧ write_read_roundtrip 3 0xdeadbeef = (0, 0, 0xdeadbeef) :=
  ⟨by norm_num, claim_C7_register_roundtrip 3 0xdeadbeef (by norm_num)⟩

set_option maxRecDepth 20000 in
/-- Claim C1 (evaluation at the failing inputs): the claim's converse
direction — an input at or below its documented limit is never rejected
for size — fails on the code.  A 255-byte `write_tx_data` succeeds against
an always-ready front-end, but a 260-byte `write_tx_data` (at its
documented limit) and a 255-byte `send_data` (below its documented
260-byte limit) produce frames of 261 and 257 bytes, which
`send_spi_data`'s 256-byte buffer check rejects with -1 before anything is
transmitted over SPI. -/
theorem claim_C1_size_limit_rejection_bug :
    (write_tx_data (okBusyEnv fun _ => 0) (List.replicate 255 0)).1 = 0 ∧
    write_tx_data (okBusyEnv fun _ => 0) (List.replicate 260 0) = (-1, []) ∧
    send_data (okBusyEnv fun _ => 0) 7 (List.replicate 255 0) = (-1, []) := by
  refine ⟨?_, by decide, by decide⟩
  have hlen : (PN5180_WRITE_TX_DATA ::
      (List.replicate 255 0).map (· % 256)).length ≤ 256 := by decide
  have h := send_spi_data_okBusy (fun _ => 0)
    (PN5180_WRITE_TX_DATA :: (List.replicate 255 0).map (· % 256)) hlen
  have hlt : ¬ (List.replicate 255 (0 : Nat)).length > 260 := by decide
  unfold write_tx_data
  rw [if_neg hlt, h]

set_option maxRecDepth 20000 in
/-- Claim C3 (evaluation at the failing input): for up to 35 elements every
buffer write of `write_register_multiple`'s construction loop stays inside
its 211-byte buffer, but for 36 and for the documented maximum of 42
elements the loop writes past the end of the buffer (up to index
`6 + 41·6 = 252`), while the frame handed to transmission is `1 + 6·42 =
253` bytes. -/
theorem claim_C3_wrm_buffer_overflow :
    wrm_in_bounds 35 = true ∧
    wrm_in_bounds 36 = false ∧
    wrm_in_bounds 42 = false ∧
    (write_register_multiple_frame (List.replicate 42 (0, 0, 0))).length =
      1 + 6 * 42 := by
  refine ⟨by decide, by decide, by decide, by decide⟩

/-- Claim C4 (evaluation at the failing input): the frame `write_eeprom`
builds never contains its `addr` parameter — the frames for addresses 5 and
77 with payload `[1, 2]` are both `{0x06, 1, 2}`, and the frame is the same
for every pair of addresses — unlike `read_eeprom`'s addressed frame
`{opcode, addr, len}`. -/
theorem claim_C4_write_eeprom_addr_missing :
    write_eeprom_frame 5 [1, 2] = [PN5180_WRITE_EEPROM, 1, 2] ∧
    write_eeprom_frame 77 [1, 2] = write_eeprom_frame 5 [1, 2] ∧
    read_eeprom_frame 5 2 = [PN5180_READ_EEPROM, 5, 2] ∧
    (∀ a a' : Nat, ∀ values : List Nat,
       write_eeprom_frame a values = write_eeprom_frame a' values) := by
  exact ⟨by decide, by decide, by decide, fun a a' values => rfl⟩

/-- Claim C8 (modelled from the spec; the host-side Session code is not
under `src/`): for every Session scope body and every exit kind — normal
completion, a raised error, or an early return — the session trace issues
`rf_off` exactly once, and it does so right before the session is
released. -/
theorem claim_C8_session_rf_off_once (bodyOps : List Nat) (exit : ExitKind) :
    (sessionTrace bodyOps exit).count SessEvent.rfOffEv = 1 ∧
    (sessionTrace bodyOps exit).drop (1 + bodyOps.length) =
      [SessEvent.rfOffEv, SessEvent.releaseEv] := by
  constructor
  · have hz : (bodyOps.map SessEvent.cardOp).count SessEvent.rfOffEv = 0 := by
      rw [List.count_eq_zero]
      intro hmem
      obtain ⟨n, _, hn⟩ := List.mem_map.mp hmem
      cases hn
    simp [sessionTrace, List.count_cons, List.count_append, hz]
  · have hlen : 1 + bodyOps.length = (bodyOps.map SessEvent.cardOp).length + 1 := by
      simp [Nat.add_comm]
    rw [sessionTrace, hlen, List.drop_succ_cons, List.drop_left]

end PN5180
